import Mathlib

/-!
# Verification of the cc_miner turtle controller

A shallow embedding of `src/cc_miner/core/turtle/turtle.py` (classes
`Turtle` / `StripTurtle`) together with the wire types of
`src/cc_miner/socket/types.py` and `src/cc_miner/core/turtle/types.py`.

The Python methods are `async` but strictly sequential per agent (one
command outstanding at a time), so they are modelled as state
transformers `TState → Except Err α × TState`: the state is threaded
even through a raised exception, mirroring Python object fields that
keep their mutated values when an exception propagates.

Unbounded `while` loops (`check_fuel`'s mutual recursion with
`move_to_location`, `refuel`'s inner loop, `falling_block_check`) are
given an explicit gas parameter; running out of gas yields the
distinguished error `Err.outOfGas`, which never corresponds to any
behaviour of the source.  All theorems are stated with enough gas, so
`outOfGas` never arises in them.
-/

namespace CCMiner

/-- `pre` is a prefix of `l` (executable). -/
def listIsPrefix : List Char → List Char → Bool
  | [], _ => true
  | _ :: _, [] => false
  | a :: as, b :: bs => a == b && listIsPrefix as bs

/-- `sub` occurs as a contiguous sublist of `l` (executable). -/
def listIsInfix (sub : List Char) : List Char → Bool
  | [] => listIsPrefix sub []
  | b :: bs => listIsPrefix sub (b :: bs) || listIsInfix sub bs

/-- Python's `sub in s` substring test on strings. -/
def containsSub (sub s : String) : Bool :=
  listIsInfix sub.data s.data

/-- `Location` from `core/turtle/types.py`: three signed integers. -/
structure Location where
  x : Int
  y : Int
  z : Int
deriving DecidableEq, Repr

/-- `Bearing` from `core/turtle/types.py`: NORTH=0, EAST=1, SOUTH=2, WEST=3. -/
inductive Bearing where
  | NORTH
  | EAST
  | SOUTH
  | WEST
deriving DecidableEq, Repr

/-- The `value` of the `Bearing` IntEnum. -/
def Bearing.val : Bearing → Nat
  | .NORTH => 0
  | .EAST => 1
  | .SOUTH => 2
  | .WEST => 3

/-- Conversion back from an ordinal (mod 4), as `Bearing(n)` in Python. -/
def Bearing.ofVal (n : Nat) : Bearing :=
  match n % 4 with
  | 0 => .NORTH
  | 1 => .EAST
  | 2 => .SOUTH
  | _ => .WEST

/-- `Bearing((b.value + 1) % len(Bearing))` — a right turn. -/
def Bearing.right (b : Bearing) : Bearing := Bearing.ofVal (b.val + 1)

/-- `Bearing((b.value - 1) % len(Bearing))`.  Python's `%` on a negative
numerator gives the nonnegative representative, so `(v - 1) % 4 = (v + 3) % 4`. -/
def Bearing.left (b : Bearing) : Bearing := Bearing.ofVal (b.val + 3)

/-- `Direction` from `core/turtle/types.py`. -/
inductive Direction where
  | FORWARD
  | BACK
  | UP
  | DOWN
deriving DecidableEq, Repr

/-- `Position` from `core/turtle/types.py`. -/
structure Position where
  location : Location
  bearing : Bearing
deriving DecidableEq, Repr

/-- `InventorySlotInfo` from `core/turtle/types.py`. -/
structure InventorySlotInfo where
  name : String
  count : Int
deriving DecidableEq, Repr

/-- Dynamically typed JSON-ish values carried in the `data` field of a
response frame (Python `Any`). -/
inductive Value where
  | null
  | int (n : Int)
  | str (s : String)
  | bool (b : Bool)
  | dict (entries : List (String × Value))

/-- `d.get(key)` on a dict value; `none` when absent or not a dict. -/
def Value.lookup (v : Value) (key : String) : Option Value :=
  match v with
  | .dict es => es.lookup key
  | _ => none

/-- `d.get(key, default)`. -/
def Value.getD (v : Value) (key : String) (dflt : Value) : Value :=
  (v.lookup key).getD dflt

/-- Read a value as a string (the scenarios modelled here only apply this
to strings, matching Python code that treats the value as `str`). -/
def Value.asStr : Value → String
  | .str s => s
  | _ => ""

/-- Read a value as an integer.  Python's `cast(int, …)` is a runtime
no-op; every reply modelled in this development is an actual integer. -/
def Value.asInt : Value → Int
  | .int n => n
  | _ => 0

/-- Modelled from the spec: `CommandResponse` (`{type:"response",
status: bool, data: any (default null)}`, §6 of the spec).  `turtle.py`
imports this class from `socket/types.py`, where it is not present in
the provided sources. -/
structure CommandResponse where
  status : Bool
  data : Value

/-- The exception classes of `core/turtle/exceptions.py`, plus pydantic's
`ValidationError` (raised when `InventorySlotInfo(**data)` fails),
Python's builtin `ValueError`, and the artificial `outOfGas`. -/
inductive Err where
  | commandException (msg : String)
  | movementException (msg : String)
  | haltException (msg : String)
  | inventoryException (msg : String)
  | interactionException (msg : String)
  | valueError (msg : String)
  | validationError
  | outOfGas
deriving DecidableEq

/-- The mutable fields of a `Turtle` object relevant to its behaviour,
together with the communication environment: `sent` records every
command string sent over the socket, `recvCount` indexes into `agent`,
the scripted remote agent (reply k is given to the k-th sent command). -/
structure TState where
  position : Position
  check_fuel : Bool
  home_location : Location
  latest_command : String
  latest_fuel : Int
  steps_from_home : Int
  sent : List String
  recvCount : Nat
  agent : Nat → CommandResponse

/-- The effect monad: a state transformer that either returns a value or
raises one of the exceptions of `Err`.  The state is returned in both
cases (Python object fields survive a raised exception). -/
def M (α : Type) : Type := TState → Except Err α × TState

/-- Return a value, leaving the state unchanged. -/
def M.pure (a : α) : M α := fun s => (Except.ok a, s)

/-- Sequencing: run `m`; on success continue with `f`, on an exception
propagate it (with the state `m` left behind). -/
def M.bind (m : M α) (f : α → M β) : M β := fun s =>
  match m s with
  | (Except.ok a, t) => f a t
  | (Except.error e, t) => (Except.error e, t)

/-- Raise an exception. -/
def M.throw (e : Err) : M α := fun s => (Except.error e, s)

/-- Read the whole object state. -/
def M.get : M TState := fun s => (Except.ok s, s)

/-- Update the object state. -/
def M.modify (f : TState → TState) : M Unit := fun s => (Except.ok (), f s)

theorem M.bind_apply (m : M α) (f : α → M β) (s : TState) :
    M.bind m f s =
      match m s with
      | (Except.ok a, t) => f a t
      | (Except.error e, t) => (Except.error e, t) := rfl

attribute [simp] M.bind_apply M.pure M.throw M.get M.modify

/-- `FUEL_LIMIT` (turtle.py line 23). -/
def FUEL_LIMIT : Int := 20000

/-- `Turtle._fuel_blocks` (turtle.py line 53). -/
def fuel_blocks : List String := ["coal"]

/-- `Turtle._slot_range` (turtle.py line 43): slots 1–16. -/
def slot_range : List Nat := List.range' 1 16

/-- `Turtle._command` (turtle.py lines 74–102): refuse a snippet without
`"return"`, stamp `latest_command` as PENDING, send the frame, receive
one reply, and restamp SUCCESS/FAILURE according to its status. -/
def command_ (command : String) : M CommandResponse := fun s =>
  if containsSub "return" command then
    let s1 := { s with latest_command := command ++ " (PENDING)" }
    let s2 := { s1 with sent := s1.sent ++ [command] }
    let res := s2.agent s2.recvCount
    let s3 := { s2 with recvCount := s2.recvCount + 1 }
    (Except.ok res,
      { s3 with
        latest_command :=
          command ++ (if res.status then " (SUCCESS)" else " (FAILURE)") })
  else
    (Except.error (Err.commandException "Command must return a value."), s)

/-- `Turtle.turn_left` (turtle.py lines 194–204). -/
def turn_left : M Unit :=
  M.bind
    (M.modify fun s =>
      { s with position := { s.position with bearing := s.position.bearing.left } })
    fun _ => M.bind (command_ "return turtle.turnLeft()") fun _ => M.pure ()

/-- `Turtle.turn_right` (turtle.py lines 206–216). -/
def turn_right : M Unit :=
  M.bind
    (M.modify fun s =>
      { s with position := { s.position with bearing := s.position.bearing.right } })
    fun _ => M.bind (command_ "return turtle.turnRight()") fun _ => M.pure ()

/-- `Turtle.dig` (turtle.py lines 218–237). -/
def dig (direction : Direction) : M Unit :=
  match direction with
  | .FORWARD => M.bind (command_ "return turtle.dig()") fun _ => M.pure ()
  | .DOWN => M.bind (command_ "return turtle.digDown()") fun _ => M.pure ()
  | .UP => M.bind (command_ "return turtle.digUp()") fun _ => M.pure ()
  | .BACK => M.throw (Err.commandException "Bad direction.")

/-- `Turtle.inspect` (turtle.py lines 239–266): on success return the
reply's `data`, on failure an empty dict. -/
def inspect (direction : Direction) : M Value :=
  match direction with
  | .FORWARD =>
      M.bind (command_ "return turtle.inspect()") fun res =>
        M.pure (if res.status then res.data else Value.dict [])
  | .DOWN =>
      M.bind (command_ "return turtle.inspectDown()") fun res =>
        M.pure (if res.status then res.data else Value.dict [])
  | .UP =>
      M.bind (command_ "return turtle.inspectUp()") fun res =>
        M.pure (if res.status then res.data else Value.dict [])
  | .BACK => M.throw (Err.commandException "Bad direction.")

/-- `Turtle.get_fuel` (turtle.py lines 268–278). -/
def get_fuel : M Int :=
  M.bind (command_ "return turtle.getFuelLevel()") fun res => fun s =>
    if res.status then (Except.ok res.data.asInt, s)
    else (Except.error (Err.commandException "Failed to get fuel level."), s)

/-- The in-place update of `self.position.location` performed by a
horizontal `move` (turtle.py lines 154–167), given the current bearing
and `position_change`. -/
def horizShift (b : Bearing) (pc : Int) (l : Location) : Location :=
  match b with
  | .NORTH => { l with z := l.z + pc }
  | .SOUTH => { l with z := l.z - pc }
  | .WEST => { l with x := l.x + pc }
  | .EAST => { l with x := l.x - pc }

/-- The body of `Turtle.move` after the fuel-guard call (turtle.py lines
134–182): update the pose in memory first, then issue the movement
command. -/
def moveStep (direction : Direction) : M Unit :=
  match direction with
  | .FORWARD =>
      M.bind
        (M.modify fun s =>
          { s with position :=
              { s.position with
                location := horizShift s.position.bearing (-1) s.position.location } })
        fun _ => M.bind (command_ "return turtle.forward()") fun _ => M.pure ()
  | .BACK =>
      M.bind
        (M.modify fun s =>
          { s with position :=
              { s.position with
                location := horizShift s.position.bearing 1 s.position.location } })
        fun _ => M.bind (command_ "return turtle.back()") fun _ => M.pure ()
  | .UP =>
      M.bind
        (M.modify fun s =>
          { s with position :=
              { s.position with
                location := { s.position.location with y := s.position.location.y + 1 } } })
        fun _ => M.bind (command_ "return turtle.up()") fun _ => M.pure ()
  | .DOWN =>
      M.bind
        (M.modify fun s =>
          { s with position :=
              { s.position with
                location := { s.position.location with y := s.position.location.y - 1 } } })
        fun _ => M.bind (command_ "return turtle.down()") fun _ => M.pure ()

/-- The `while self.position.bearing != target: turn_right()` loops of
`move_to_location` (turtle.py lines 328–334, 341–347, 354–356).  A right
turn steps the bearing cyclically through all four values, so the loop
always ends within three turns; it is run with gas 4. -/
def turnUntil : Nat → Bearing → M Unit
  | 0, _ => M.pure ()
  | Nat.succ n, target => fun s =>
    if s.position.bearing = target then (Except.ok (), s)
    else M.bind turn_right (fun _ => turnUntil n target) s

/-- `n` iterations of a loop body. -/
def repeatM : Nat → M Unit → M Unit
  | 0, _ => M.pure ()
  | Nat.succ n, act => M.bind act fun _ => repeatM n act

mutual

/-- `Turtle.check_fuel` (turtle.py lines 104–120): read the fuel level,
compute and cache the return cost, and if the cost reaches the fuel,
disable the guard, drive back to `_home_location`, and raise
`HaltException`.  The gas argument only bounds the mutual recursion. -/
def check_fuel : Nat → M Unit
  | 0 => M.throw Err.outOfGas
  | Nat.succ g =>
    M.bind get_fuel fun fuel =>
    M.bind (M.modify fun s => { s with latest_fuel := fuel }) fun _ =>
    M.bind (fun s => move_to_location g s.home_location true s) fun steps_to_get_back =>
    M.bind (M.modify fun s => { s with steps_from_home := steps_to_get_back }) fun _ =>
    fun s =>
      if steps_to_get_back ≥ fuel then
        (M.bind (M.modify fun t => { t with check_fuel := false }) fun _ =>
         M.bind (fun t => move_to_location g t.home_location false t) fun _ =>
         M.throw (Err.haltException "Returned before ran out of fuel.")) s
      else (Except.ok (), s)

/-- `Turtle.move` (turtle.py lines 122–182): run the fuel guard when it
is enabled, then perform the step. -/
def move : Nat → Direction → M Unit
  | 0, _ => M.throw Err.outOfGas
  | Nat.succ g, direction =>
    M.bind (fun s => if s.check_fuel then check_fuel g s else (Except.ok (), s))
      fun _ => moveStep direction

/-- `Turtle.dig_move` (turtle.py lines 295–298). -/
def dig_move : Nat → Direction → M Unit
  | 0, _ => M.throw Err.outOfGas
  | Nat.succ g, direction => M.bind (dig direction) fun _ => move g direction

/-- `Turtle.move_to_location` (turtle.py lines 300–358): axis-ordered
greedy walk (y, then x, then z), rotating by right turns, returning the
number of steps; with `cost_calculation = true` nothing is executed and
only the count is returned.  The deltas are computed once, up front, as
in the source; each loop iteration adds one to the returned cost. -/
def move_to_location : Nat → Location → Bool → M Int
  | 0, _, _ => M.throw Err.outOfGas
  | Nat.succ g, location, cost_calculation =>
    M.bind M.get fun s0 =>
    let x_diff := location.x - s0.position.location.x
    let y_diff := location.y - s0.position.location.y
    let z_diff := location.z - s0.position.location.z
    M.bind
      (repeatM y_diff.natAbs
        (if cost_calculation then M.pure ()
         else dig_move g (if y_diff > 0 then Direction.UP else Direction.DOWN)))
      fun _ =>
    M.bind
      (if cost_calculation then M.pure ()
       else if x_diff > 0 then turnUntil 4 Bearing.EAST else turnUntil 4 Bearing.WEST)
      fun _ =>
    M.bind
      (repeatM x_diff.natAbs
        (if cost_calculation then M.pure () else dig_move g Direction.FORWARD))
      fun _ =>
    M.bind
      (if cost_calculation then M.pure ()
       else if z_diff > 0 then turnUntil 4 Bearing.SOUTH else turnUntil 4 Bearing.NORTH)
      fun _ =>
    M.bind
      (repeatM z_diff.natAbs
        (if cost_calculation then M.pure () else dig_move g Direction.FORWARD))
      fun _ =>
    M.bind (if cost_calculation then M.pure () else turnUntil 4 Bearing.NORTH)
      fun _ =>
    M.pure ((y_diff.natAbs + x_diff.natAbs + z_diff.natAbs : Nat) : Int)

end

/-- `InventorySlotInfo(**res.data)` — pydantic construction from a dict
(`name: str`, `count: int`); a non-conforming dict raises
`ValidationError`. -/
def parseSlotInfo (v : Value) : Option InventorySlotInfo :=
  match v.lookup "name", v.lookup "count" with
  | some (Value.str n), some (Value.int c) => some ⟨n, c⟩
  | _, _ => none

/-- The slot loop of `Turtle.inventory_select` (turtle.py lines
391–406): query each slot, skip empty ones (`data is None`), and select
the first slot whose item name contains `search`. -/
def inventory_select_go (search : String) : List Nat → M Unit
  | [] => M.throw (Err.inventoryException "Could not find item.")
  | slot :: rest =>
    M.bind (command_ s!"return turtle.getItemDetail({slot})") fun res =>
      match res.data with
      | Value.null => inventory_select_go search rest
      | d =>
        match parseSlotInfo d with
        | none => M.throw Err.validationError
        | some details =>
          if containsSub search details.name then
            M.bind (command_ s!"return turtle.select({slot})") fun _ => M.pure ()
          else inventory_select_go search rest

/-- `Turtle.inventory_select` (turtle.py lines 382–406). -/
def inventory_select (search : String) : M Unit :=
  inventory_select_go search slot_range

/-- The `while True` loop inside `Turtle.refuel` (turtle.py lines
470–485) for one fuel type.  Returns `true` when the function should
return successfully (the threshold was met) and `false` when the loop
`break`s because this fuel type ran out; only `InventoryException` from
`inventory_select` is caught. -/
def refuelLoop (target_fuel_level : Int) : Nat → String → M Bool
  | 0, _ => M.throw Err.outOfGas
  | Nat.succ g, fuel_type => fun s =>
    match inventory_select fuel_type s with
    | (Except.error (Err.inventoryException _), s1) => (Except.ok false, s1)
    | (Except.error e, s1) => (Except.error e, s1)
    | (Except.ok _, s1) =>
      (M.bind (command_ "return turtle.refuel()") fun _ =>
       M.bind get_fuel fun fuel => fun s2 =>
         if fuel > target_fuel_level ∨ fuel ≥ FUEL_LIMIT then (Except.ok true, s2)
         else refuelLoop target_fuel_level g fuel_type s2) s1

/-- The `for fuel_type in self._fuel_blocks` loop of `Turtle.refuel`
plus the final double check (turtle.py lines 469–495). -/
def refuelTypes (target_fuel_level : Int) (g : Nat) : List String → M Unit
  | [] =>
    M.bind get_fuel fun fuel => fun s =>
      if fuel > target_fuel_level ∨ fuel ≥ FUEL_LIMIT then (Except.ok (), s)
      else (Except.error (Err.inventoryException "Not enough fuel."), s)
  | fuel_type :: rest =>
    M.bind (refuelLoop target_fuel_level g fuel_type) fun threshold_met => fun s =>
      if threshold_met then (Except.ok (), s)
      else refuelTypes target_fuel_level g rest s

/-- `Turtle.refuel` (turtle.py lines 456–495).  The guard at lines
466–467 raises `ValueError` when `0 < target_fuel_level < FUEL_LIMIT`,
exactly as written in the source. -/
def refuel (g : Nat) (target_fuel_level : Int) : M Unit := fun s =>
  if 0 < target_fuel_level ∧ target_fuel_level < FUEL_LIMIT then
    (Except.error
      (Err.valueError "Target fuel level must be between 0 and 20000."), s)
  else
    refuelTypes target_fuel_level g fuel_blocks s

/-- The `falling_blocks` list of `StripTurtle.falling_block_check`
(turtle.py line 617). -/
def falling_blocks : List String := ["gravel", "sand"]

/-- `StripTurtle.falling_block_check` (turtle.py lines 612–630): inspect
FORWARD; the block name is read with `data.get("name ", "")` — the key
carries a trailing space exactly as in the source — and while it
contains one of the falling-block substrings, dig FORWARD and loop. -/
def falling_block_check : Nat → M Unit
  | 0 => M.throw Err.outOfGas
  | Nat.succ g =>
    M.bind (inspect Direction.FORWARD) fun data => fun s =>
      let name := (data.getD "name " (Value.str "")).asStr
      if falling_blocks.any (fun fb => containsSub fb name) then
        (M.bind (dig Direction.FORWARD) fun _ => falling_block_check g) s
      else (Except.ok (), s)

/-!
## Reference semantics for the home-location snapshot

`StripTurtle.start` executes `self._home_location = self.position.location`
(turtle.py line 663).  In Python this assignment copies an *object
reference*: `_home_location` and `_position.location` become the same
mutable `Location` (a pydantic model), and the in-place updates
`self.position.location.z += …` performed by `Turtle.move` (lines
154–175) are visible through both names.  The value-typed `TState`
above cannot express this sharing, so the snapshot step is modelled
separately with an explicit heap of `Location` objects and reference
indices for the two fields. -/
structure AliasState where
  heap : List Location
  posRef : Nat
  homeRef : Nat
  bearing : Bearing

/-- The `Location` currently denoted by `self.position.location`. -/
def AliasState.posLoc (s : AliasState) : Location :=
  s.heap.getD s.posRef ⟨0, 0, 0⟩

/-- The `Location` currently denoted by `self._home_location`. -/
def AliasState.homeLoc (s : AliasState) : Location :=
  s.heap.getD s.homeRef ⟨0, 0, 0⟩

/-- `self._home_location = self.position.location` (turtle.py line 663):
the assignment copies the reference, not the coordinates. -/
def snapshotHome (s : AliasState) : AliasState := { s with homeRef := s.posRef }

/-- The pose mutation performed by `Turtle.move` (turtle.py lines
154–175) under reference semantics: the augmented assignments mutate
the referenced `Location` object in place. -/
def moveAliasStep (direction : Direction) (s : AliasState) : AliasState :=
  match direction with
  | .FORWARD => { s with heap := s.heap.set s.posRef (horizShift s.bearing (-1) s.posLoc) }
  | .BACK => { s with heap := s.heap.set s.posRef (horizShift s.bearing 1 s.posLoc) }
  | .UP => { s with heap := s.heap.set s.posRef { s.posLoc with y := s.posLoc.y + 1 } }
  | .DOWN => { s with heap := s.heap.set s.posRef { s.posLoc with y := s.posLoc.y - 1 } }

/-!
## Characterisation lemmas for the primitives -/

/-- The bookkeeping a successful `_command` performs besides returning
the reply: stamp `latest_command`, record the frame, consume the reply. -/
def afterCmd (c : String) (s : TState) : TState :=
  { s with
    latest_command := c ++ (if (s.agent s.recvCount).status then " (SUCCESS)" else " (FAILURE)"),
    sent := s.sent ++ [c],
    recvCount := s.recvCount + 1 }

@[simp] theorem afterCmd_position (c : String) (s : TState) :
    (afterCmd c s).position = s.position := rfl

@[simp] theorem afterCmd_check_fuel (c : String) (s : TState) :
    (afterCmd c s).check_fuel = s.check_fuel := rfl

@[simp] theorem afterCmd_home (c : String) (s : TState) :
    (afterCmd c s).home_location = s.home_location := rfl

@[simp] theorem afterCmd_agent (c : String) (s : TState) :
    (afterCmd c s).agent = s.agent := rfl

@[simp] theorem afterCmd_sent (c : String) (s : TState) :
    (afterCmd c s).sent = s.sent ++ [c] := rfl

theorem command_run (c : String) (h : containsSub "return" c = true) (s : TState) :
    command_ c s = (Except.ok (s.agent s.recvCount), afterCmd c s) := by
  simp [command_, h, afterCmd]

theorem turn_right_run (s : TState) :
    turn_right s =
      (Except.ok (), afterCmd "return turtle.turnRight()"
        { s with position := ⟨s.position.location, s.position.bearing.right⟩ }) := by
  simp [turn_right, command_run "return turtle.turnRight()" (by rfl)]

/-- The command string `dig` issues for each direction (BACK raises). -/
def digCmd : Direction → String
  | .FORWARD => "return turtle.dig()"
  | .DOWN => "return turtle.digDown()"
  | .UP => "return turtle.digUp()"
  | .BACK => ""

theorem dig_run (d : Direction) (hd : d ≠ Direction.BACK) (s : TState) :
    dig d s = (Except.ok (), afterCmd (digCmd d) s) := by
  cases d <;>
    simp_all [dig, digCmd, command_run "return turtle.dig()" (by rfl),
      command_run "return turtle.digDown()" (by rfl),
      command_run "return turtle.digUp()" (by rfl)]

/-- The location update a `move` in direction `d` performs at bearing `b`. -/
def moveShift (d : Direction) (b : Bearing) (l : Location) : Location :=
  match d with
  | .FORWARD => horizShift b (-1) l
  | .BACK => horizShift b 1 l
  | .UP => { l with y := l.y + 1 }
  | .DOWN => { l with y := l.y - 1 }

/-- The command string `move` issues for each direction. -/
def moveCmd : Direction → String
  | .FORWARD => "return turtle.forward()"
  | .BACK => "return turtle.back()"
  | .UP => "return turtle.up()"
  | .DOWN => "return turtle.down()"

theorem moveStep_run (d : Direction) (s : TState) :
    moveStep d s =
      (Except.ok (), afterCmd (moveCmd d)
        { s with position := ⟨moveShift d s.position.bearing s.position.location,
                              s.position.bearing⟩ }) := by
  cases d <;>
    simp [moveStep, moveShift, moveCmd, command_run "return turtle.forward()" (by rfl),
      command_run "return turtle.back()" (by rfl), command_run "return turtle.up()" (by rfl),
      command_run "return turtle.down()" (by rfl)]

theorem move_run_no_guard (g : Nat) (d : Direction) (s : TState)
    (hf : s.check_fuel = false) :
    move (g + 1) d s = moveStep d s := by
  simp [move, hf]

theorem get_fuel_run (s : TState) (f : Int)
    (hr : s.agent s.recvCount = ⟨true, Value.int f⟩) :
    get_fuel s = (Except.ok f, afterCmd "return turtle.getFuelLevel()" s) := by
  simp [get_fuel, command_run "return turtle.getFuelLevel()" (by rfl), hr, Value.asInt, afterCmd]

theorem repeatM_pure (n : Nat) : repeatM n (M.pure ()) = M.pure () := by
  induction n with
  | zero => rfl
  | succ n ih => funext s; simp [repeatM, ih]

theorem turnUntil_run (target : Bearing) (s : TState) :
    ∃ t, turnUntil 4 target s = (Except.ok (), t) ∧
      t.position.location = s.position.location ∧
      t.position.bearing = target ∧
      t.check_fuel = s.check_fuel ∧
      t.home_location = s.home_location ∧
      t.agent = s.agent := by
  obtain ⟨⟨loc, b⟩, cf, hm, lc, lf, sh, sn, rc, ag⟩ := s
  cases b <;> cases target <;>
    simp only [turnUntil, turn_right_run, M.bind_apply, afterCmd_position] <;>
    simp [afterCmd, Bearing.right, Bearing.val, Bearing.ofVal]

theorem dig_move_run (g : Nat) (d : Direction) (hd : d ≠ Direction.BACK)
    (s : TState) (hf : s.check_fuel = false) :
    ∃ t, dig_move (g + 2) d s = (Except.ok (), t) ∧
      t.position.location = moveShift d s.position.bearing s.position.location ∧
      t.position.bearing = s.position.bearing ∧
      t.check_fuel = false ∧
      t.home_location = s.home_location ∧
      t.agent = s.agent := by
  simp [dig_move, dig_run d hd, move, moveStep_run, hf]

theorem repeat_dig_move_run (g n : Nat) (d : Direction) (hd : d ≠ Direction.BACK) :
    ∀ s : TState, s.check_fuel = false →
      ∃ t, repeatM n (dig_move (g + 2) d) s = (Except.ok (), t) ∧
        t.position.location = (moveShift d s.position.bearing)^[n] s.position.location ∧
        t.position.bearing = s.position.bearing ∧
        t.check_fuel = false ∧
        t.home_location = s.home_location ∧
        t.agent = s.agent := by
  induction n with
  | zero => exact fun s hf => ⟨s, rfl, rfl, rfl, hf, rfl, rfl⟩
  | succ n ih =>
    intro s hf
    obtain ⟨t, ht, tloc, tb, tcf, th, tag⟩ := dig_move_run g d hd s hf
    obtain ⟨u, hu, uloc, ub, ucf, uh, uag⟩ := ih t tcf
    refine ⟨u, ?_, ?_, ?_, ucf, ?_, ?_⟩
    · simp [repeatM, ht, hu]
    · rw [uloc, tloc, tb, Function.iterate_succ_apply]
    · rw [ub, tb]
    · rw [uh, th]
    · rw [uag, tag]

theorem iterate_up (bb : Bearing) (n : Nat) (l : Location) :
    (moveShift Direction.UP bb)^[n] l = ⟨l.x, l.y + n, l.z⟩ := by
  induction n generalizing l with
  | zero => simp
  | succ n ih =>
    rw [Function.iterate_succ_apply, ih]
    simp [moveShift, Location.mk.injEq]
    omega

theorem iterate_down (bb : Bearing) (n : Nat) (l : Location) :
    (moveShift Direction.DOWN bb)^[n] l = ⟨l.x, l.y - n, l.z⟩ := by
  induction n generalizing l with
  | zero => simp
  | succ n ih =>
    rw [Function.iterate_succ_apply, ih]
    simp [moveShift, Location.mk.injEq]
    omega

theorem iterate_fwd_east (n : Nat) (l : Location) :
    (moveShift Direction.FORWARD Bearing.EAST)^[n] l = ⟨l.x + n, l.y, l.z⟩ := by
  induction n generalizing l with
  | zero => simp
  | succ n ih =>
    rw [Function.iterate_succ_apply, ih]
    simp [moveShift, horizShift, Location.mk.injEq]
    omega

theorem iterate_fwd_west (n : Nat) (l : Location) :
    (moveShift Direction.FORWARD Bearing.WEST)^[n] l = ⟨l.x - n, l.y, l.z⟩ := by
  induction n generalizing l with
  | zero => simp
  | succ n ih =>
    rw [Function.iterate_succ_apply, ih]
    simp [moveShift, horizShift, Location.mk.injEq]
    omega

theorem iterate_fwd_south (n : Nat) (l : Location) :
    (moveShift Direction.FORWARD Bearing.SOUTH)^[n] l = ⟨l.x, l.y, l.z + n⟩ := by
  induction n generalizing l with
  | zero => simp
  | succ n ih =>
    rw [Function.iterate_succ_apply, ih]
    simp [moveShift, horizShift, Location.mk.injEq]
    omega

theorem iterate_fwd_north (n : Nat) (l : Location) :
    (moveShift Direction.FORWARD Bearing.NORTH)^[n] l = ⟨l.x, l.y, l.z - n⟩ := by
  induction n generalizing l with
  | zero => simp
  | succ n ih =>
    rw [Function.iterate_succ_apply, ih]
    simp [moveShift, horizShift, Location.mk.injEq]
    omega

/-- The y-leg of the planner: `|Δy|` vertical `dig_move`s, choosing UP
or DOWN by the sign of `Δy`, land on `y + Δy`. -/
theorem legY_run (g : Nat) (yd : Int) (s : TState) (hf : s.check_fuel = false) :
    ∃ t, repeatM yd.natAbs
        (dig_move (g + 2) (if yd > 0 then Direction.UP else Direction.DOWN)) s =
        (Except.ok (), t) ∧
      t.position.location =
        ⟨s.position.location.x, s.position.location.y + yd, s.position.location.z⟩ ∧
      t.position.bearing = s.position.bearing ∧
      t.check_fuel = false ∧
      t.home_location = s.home_location ∧
      t.agent = s.agent := by
  by_cases hy : yd > 0
  · rw [if_pos hy]
    obtain ⟨t, ht, tloc, tb, tcf, th, tag⟩ :=
      repeat_dig_move_run g yd.natAbs Direction.UP (by simp) s hf
    refine ⟨t, ht, ?_, tb, tcf, th, tag⟩
    rw [tloc, iterate_up, Int.natAbs_of_nonneg (by omega : (0 : Int) ≤ yd)]
  · rw [if_neg hy]
    obtain ⟨t, ht, tloc, tb, tcf, th, tag⟩ :=
      repeat_dig_move_run g yd.natAbs Direction.DOWN (by simp) s hf
    refine ⟨t, ht, ?_, tb, tcf, th, tag⟩
    rw [tloc, iterate_down, Int.ofNat_natAbs_of_nonpos (by omega : yd ≤ 0)]
    simp only [Location.mk.injEq, true_and, and_true]
    omega

/-- The x-leg steps: `|Δx|` forward `dig_move`s land on `x + Δx` when
the bearing is EAST for positive `Δx` and WEST otherwise. -/
theorem legX_run (g : Nat) (xd : Int) (s : TState) (hf : s.check_fuel = false)
    (hb : s.position.bearing = if xd > 0 then Bearing.EAST else Bearing.WEST) :
    ∃ t, repeatM xd.natAbs (dig_move (g + 2) Direction.FORWARD) s =
        (Except.ok (), t) ∧
      t.position.location =
        ⟨s.position.location.x + xd, s.position.location.y, s.position.location.z⟩ ∧
      t.position.bearing = s.position.bearing ∧
      t.check_fuel = false ∧
      t.home_location = s.home_location ∧
      t.agent = s.agent := by
  obtain ⟨t, ht, tloc, tb, tcf, th, tag⟩ :=
    repeat_dig_move_run g xd.natAbs Direction.FORWARD (by simp) s hf
  refine ⟨t, ht, ?_, tb, tcf, th, tag⟩
  by_cases hx : xd > 0
  · rw [tloc, hb, if_pos hx, iterate_fwd_east,
      Int.natAbs_of_nonneg (by omega : (0 : Int) ≤ xd)]
  · rw [tloc, hb, if_neg hx, iterate_fwd_west,
      Int.ofNat_natAbs_of_nonpos (by omega : xd ≤ 0)]
    simp only [Location.mk.injEq, true_and, and_true]
    omega

/-- The z-leg steps: `|Δz|` forward `dig_move`s land on `z + Δz` when
the bearing is SOUTH for positive `Δz` and NORTH otherwise. -/
theorem legZ_run (g : Nat) (zd : Int) (s : TState) (hf : s.check_fuel = false)
    (hb : s.position.bearing = if zd > 0 then Bearing.SOUTH else Bearing.NORTH) :
    ∃ t, repeatM zd.natAbs (dig_move (g + 2) Direction.FORWARD) s =
        (Except.ok (), t) ∧
      t.position.location =
        ⟨s.position.location.x, s.position.location.y, s.position.location.z + zd⟩ ∧
      t.position.bearing = s.position.bearing ∧
      t.check_fuel = false ∧
      t.home_location = s.home_location ∧
      t.agent = s.agent := by
  obtain ⟨t, ht, tloc, tb, tcf, th, tag⟩ :=
    repeat_dig_move_run g zd.natAbs Direction.FORWARD (by simp) s hf
  refine ⟨t, ht, ?_, tb, tcf, th, tag⟩
  by_cases hz : zd > 0
  · rw [tloc, hb, if_pos hz, iterate_fwd_south,
      Int.natAbs_of_nonneg (by omega : (0 : Int) ≤ zd)]
  · rw [tloc, hb, if_neg hz, iterate_fwd_north,
      Int.ofNat_natAbs_of_nonpos (by omega : zd ≤ 0)]
    simp only [Location.mk.injEq, true_and, and_true]
    omega

theorem move_to_location_cost (g : Nat) (location : Location) (s : TState) :
    move_to_location (g + 1) location true s =
      (Except.ok (((location.y - s.position.location.y).natAbs +
                   (location.x - s.position.location.x).natAbs +
                   (location.z - s.position.location.z).natAbs : Nat) : Int), s) := by
  simp [move_to_location, repeatM_pure]

theorem ite_turnUntil (c : Prop) [Decidable c] (A B : Bearing) (s : TState) :
    (if c then turnUntil 4 A else turnUntil 4 B) s = turnUntil 4 (if c then A else B) s := by
  split <;> rfl

theorem move_to_location_run (g : Nat) (location : Location) (s : TState)
    (hf : s.check_fuel = false) :
    ∃ t, move_to_location (g + 3) location false s =
        (Except.ok (((location.y - s.position.location.y).natAbs +
                     (location.x - s.position.location.x).natAbs +
                     (location.z - s.position.location.z).natAbs : Nat) : Int), t) ∧
      t.position.location = location ∧
      t.position.bearing = Bearing.NORTH ∧
      t.check_fuel = false ∧
      t.home_location = s.home_location ∧
      t.agent = s.agent := by
  obtain ⟨X, Y, Z⟩ := location
  obtain ⟨t1, h1, l1, b1, c1, hh1, a1⟩ :=
    legY_run g (Y - s.position.location.y) s hf
  obtain ⟨t2, h2, l2, b2, c2, hh2, a2⟩ :=
    turnUntil_run
      (if X - s.position.location.x > 0 then Bearing.EAST else Bearing.WEST) t1
  obtain ⟨t3, h3, l3, b3, c3, hh3, a3⟩ :=
    legX_run g (X - s.position.location.x) t2 (c2.trans c1) b2
  obtain ⟨t4, h4, l4, b4, c4, hh4, a4⟩ :=
    turnUntil_run
      (if Z - s.position.location.z > 0 then Bearing.SOUTH else Bearing.NORTH) t3
  obtain ⟨t5, h5, l5, b5, c5, hh5, a5⟩ :=
    legZ_run g (Z - s.position.location.z) t4 (c4.trans c3) b4
  obtain ⟨t6, h6, l6, b6, c6, hh6, a6⟩ := turnUntil_run Bearing.NORTH t5
  refine ⟨t6, ?_, ?_, b6, c6.trans c5, hh6.trans (hh5.trans (hh4.trans (hh3.trans (hh2.trans hh1)))),
    a6.trans (a5.trans (a4.trans (a3.trans (a2.trans a1))))⟩
  · simp only [move_to_location, M.bind_apply, M.get, Bool.false_eq_true, if_false,
      ite_turnUntil]
    simp only [h1, h2, h3, h4, h5, h6]
    rfl
  · rw [l6, l5, l4, l3, l2, l1]
    simp only [Location.mk.injEq, true_and, and_true]
    omega



/-!
## Concrete states and agents used by the claims -/

/-- A stub agent that always replies success with no data. -/
def stubAgent : Nat → CommandResponse := fun _ => ⟨true, Value.null⟩

/-- The state of a freshly constructed `Turtle` (turtle.py lines 39–67)
driven by a given agent script: pose `((0,0,0), NORTH)`, fuel guard
enabled, home at the origin. -/
def initState (agent : Nat → CommandResponse) : TState where
  position := ⟨⟨0, 0, 0⟩, Bearing.NORTH⟩
  check_fuel := true
  home_location := ⟨0, 0, 0⟩
  latest_command := ""
  latest_fuel := 0
  steps_from_home := 0
  sent := []
  recvCount := 0
  agent := agent

/-- `initState` with the fuel guard disabled. -/
def initStateNoGuard (agent : Nat → CommandResponse) : TState :=
  { initState agent with check_fuel := false }

/-!
## The claims -/

/-- C4: for every current pose `p` and every target location `T`,
`move_to_location(T, cost_only=true)` returns exactly
`|T.x−p.x| + |T.y−p.y| + |T.z−p.z|`; the state is returned unchanged, so
no command frames are sent and the pose (location and bearing) is left
untouched. -/
theorem C4_cost_only_law (g : Nat) (T : Location) (s : TState) :
    move_to_location (g + 1) T true s =
      (Except.ok (((T.x - s.position.location.x).natAbs +
                   (T.y - s.position.location.y).natAbs +
                   (T.z - s.position.location.z).natAbs : Nat) : Int), s) := by
  rw [move_to_location_cost]
  simp only [Prod.mk.injEq, Except.ok.injEq, Nat.cast_inj, and_true]
  omega

/-- C5: from any starting pose and any target `T`, if the fuel guard is
disabled and the agent always replies success, `move_to_location(T)`
completes without error, and afterwards the pose is `(T, NORTH)`. -/
theorem C5_planner_arrival (g : Nat) (T : Location) (s : TState)
    (hf : s.check_fuel = false)
    (hstub : ∀ n, s.agent n = ⟨true, Value.null⟩) :
    ∃ c t, move_to_location (g + 3) T false s = (Except.ok c, t) ∧
      t.position.location = T ∧ t.position.bearing = Bearing.NORTH := by
  obtain ⟨t, h, l, b, _, _, _⟩ := move_to_location_run g T s hf
  exact ⟨_, t, h, l, b⟩

theorem C5_planner_arrival_witness :
    (initStateNoGuard stubAgent).check_fuel = false ∧
    (∃ c t, move_to_location 3 ⟨2, 1, -1⟩ false (initStateNoGuard stubAgent) =
        (Except.ok c, t) ∧
      t.position.location = ⟨2, 1, -1⟩ ∧ t.position.bearing = Bearing.NORTH) :=
  ⟨rfl, C5_planner_arrival 0 ⟨2, 1, -1⟩ (initStateNoGuard stubAgent) rfl fun _ => rfl⟩

/-- The number of `turnRight` frames `move_to_location` issues when the
target equals the current location, by starting bearing: rotate to WEST
(`Δx = 0` takes the `else` branch), then to NORTH (`Δz = 0` likewise),
and the final rotation to NORTH is a no-op. -/
def homeRotationTurns : Bearing → Nat
  | .NORTH => 4
  | .EAST => 3
  | .SOUTH => 2
  | .WEST => 1

/-- Moving to the current location: every delta is zero, so no step is
taken, yet the planner still rotates — to WEST for the x leg, then to
NORTH for the z leg — sending `homeRotationTurns` turn frames. -/
theorem move_to_self_spec (g : Nat) (s : TState) :
    (move_to_location (g + 1) s.position.location false s).1 = Except.ok 0 ∧
    (move_to_location (g + 1) s.position.location false s).2.sent =
      s.sent ++ List.replicate (homeRotationTurns s.position.bearing)
        "return turtle.turnRight()" ∧
    (move_to_location (g + 1) s.position.location false s).2.position.location =
      s.position.location ∧
    (move_to_location (g + 1) s.position.location false s).2.position.bearing =
      Bearing.NORTH := by
  obtain ⟨⟨⟨x, y, z⟩, b⟩, cf, hm, lc, lf, sh, sn, rc, ag⟩ := s
  cases b <;>
    simp only [move_to_location, M.bind_apply, M.get, sub_self, Int.natAbs_zero, repeatM,
      gt_iff_lt, lt_self_iff_false, Bool.false_eq_true, if_false, ite_turnUntil] <;>
    simp only [M.pure, turnUntil, turn_right_run, M.bind_apply, afterCmd_position] <;>
    simp [afterCmd, Bearing.right, Bearing.val, Bearing.ofVal, homeRotationTurns,
      List.replicate]

/-- C6 counterexample: from pose `((0,0,0), NORTH)` the target `(0,0,0)`
has `Δx = 0` (indeed all deltas are zero), yet `move_to_location` issues
four `turnRight` frames — the rotation for a zero delta is *not*
skipped, refuting the claim that no turn commands are issued. -/
theorem C6_zero_delta_counterexample :
    (move_to_location 1 ⟨0, 0, 0⟩ false (initState stubAgent)).2.sent =
      ["return turtle.turnRight()", "return turtle.turnRight()",
       "return turtle.turnRight()", "return turtle.turnRight()"] ∧
    (move_to_location 1 ⟨0, 0, 0⟩ false (initState stubAgent)).2.sent ≠ [] := by
  have h := (move_to_self_spec 0 (initState stubAgent)).2.1
  have hp : (initState stubAgent).position.location = ⟨0, 0, 0⟩ := rfl
  have hsn : (initState stubAgent).sent = [] := rfl
  have hb : (initState stubAgent).position.bearing = Bearing.NORTH := rfl
  rw [hp, hsn, hb] at h
  norm_num [homeRotationTurns, List.replicate] at h
  rw [h]
  simp

/-- C6 as amended: with `cost_only = false`, a zero delta on an axis
skips the stepping for that axis but not the rotation: with `Δx = 0` the
planner still rotates toward WEST and with `Δz = 0` toward NORTH.  In
particular a move to the current location sends exactly
`homeRotationTurns bearing` `turnRight` frames (and no movement frames),
returns cost 0, and leaves the location unchanged with bearing NORTH. -/
theorem C6_zero_delta_amended (g : Nat) (s : TState) :
    (move_to_location (g + 1) s.position.location false s).1 = Except.ok 0 ∧
    (move_to_location (g + 1) s.position.location false s).2.sent =
      s.sent ++ List.replicate (homeRotationTurns s.position.bearing)
        "return turtle.turnRight()" ∧
    (move_to_location (g + 1) s.position.location false s).2.position.location =
      s.position.location ∧
    (move_to_location (g + 1) s.position.location false s).2.position.bearing =
      Bearing.NORTH :=
  move_to_self_spec g s


/-- C8: with the fuel guard disabled and a stub success agent, the
bearing is never modified and the location changes exactly per the
bearing-relative step table: `move(FORWARD)` shifts the one horizontal
axis the bearing selects by the table's sign (NORTH: `z−1`, EAST:
`x+1`, SOUTH: `z+1`, WEST: `x−1`) and `move(BACK)` by the negated sign,
leaving `y` and the other horizontal axis intact; `move(UP)`/`move(DOWN)`
change `y` by exactly `+1`/`−1` and nothing else. -/
theorem C8_move_coupling (g : Nat) (d : Direction) (s : TState)
    (hf : s.check_fuel = false)
    (hstub : ∀ n, s.agent n = ⟨true, Value.null⟩) :
    (move (g + 1) d s).2.position.bearing = s.position.bearing ∧
    (move (g + 1) d s).2.position.location =
      (match d, s.position.bearing with
       | Direction.FORWARD, Bearing.NORTH =>
           { s.position.location with z := s.position.location.z - 1 }
       | Direction.FORWARD, Bearing.EAST =>
           { s.position.location with x := s.position.location.x + 1 }
       | Direction.FORWARD, Bearing.SOUTH =>
           { s.position.location with z := s.position.location.z + 1 }
       | Direction.FORWARD, Bearing.WEST =>
           { s.position.location with x := s.position.location.x - 1 }
       | Direction.BACK, Bearing.NORTH =>
           { s.position.location with z := s.position.location.z + 1 }
       | Direction.BACK, Bearing.EAST =>
           { s.position.location with x := s.position.location.x - 1 }
       | Direction.BACK, Bearing.SOUTH =>
           { s.position.location with z := s.position.location.z - 1 }
       | Direction.BACK, Bearing.WEST =>
           { s.position.location with x := s.position.location.x + 1 }
       | Direction.UP, _ =>
           { s.position.location with y := s.position.location.y + 1 }
       | Direction.DOWN, _ =>
           { s.position.location with y := s.position.location.y - 1 }) := by
  have hrun : move (g + 1) d s = moveStep d s := move_run_no_guard g d s hf
  cases d <;> cases hb : s.position.bearing <;>
    simp [hrun, moveStep_run, afterCmd_position, hb, moveShift, horizShift,
      Location.mk.injEq] <;>
    omega

theorem C8_move_coupling_witness :
    (initStateNoGuard stubAgent).check_fuel = false ∧
    (move 1 Direction.FORWARD (initStateNoGuard stubAgent)).2.position.bearing =
      (initStateNoGuard stubAgent).position.bearing ∧
    (move 1 Direction.FORWARD (initStateNoGuard stubAgent)).2.position.location =
      { (initStateNoGuard stubAgent).position.location with
        z := (initStateNoGuard stubAgent).position.location.z - 1 } :=
  ⟨rfl,
   (C8_move_coupling 0 Direction.FORWARD (initStateNoGuard stubAgent) rfl fun _ => rfl).1,
   (C8_move_coupling 0 Direction.FORWARD (initStateNoGuard stubAgent) rfl fun _ => rfl).2⟩


/-- C1: with the fuel guard enabled, `move` first reads the fuel level
and computes the axis-ordered return cost to home (cached in
`latest_fuel` / `steps_from_home`); if the cost reaches the fuel, the
guard sets `check_fuel := false`, drives the plan back to home with the
guard disabled (so it cannot recurse), and raises `HaltException`
("HaltReturned" in the spec's error taxonomy); if the cost is strictly
below the fuel, the move proceeds normally: it behaves exactly as the
guard-free step from the state with the fuel read and the cost cached. -/
theorem C1_fuel_guard (g : Nat) (d : Direction) (s : TState) (f : Int)
    (hguard : s.check_fuel = true)
    (hreply : s.agent s.recvCount = ⟨true, Value.int f⟩) :
    ((((s.home_location.y - s.position.location.y).natAbs +
       (s.home_location.x - s.position.location.x).natAbs +
       (s.home_location.z - s.position.location.z).natAbs : Nat) : Int) ≥ f →
      ∃ t, move (g + 5) d s =
          (Except.error (Err.haltException "Returned before ran out of fuel."), t) ∧
        t.check_fuel = false ∧
        t.position.location = s.home_location ∧
        t.position.bearing = Bearing.NORTH) ∧
    ((((s.home_location.y - s.position.location.y).natAbs +
       (s.home_location.x - s.position.location.x).natAbs +
       (s.home_location.z - s.position.location.z).natAbs : Nat) : Int) < f →
      move (g + 5) d s = moveStep d
        { afterCmd "return turtle.getFuelLevel()" s with
          latest_fuel := f
          steps_from_home :=
            (((s.home_location.y - s.position.location.y).natAbs +
              (s.home_location.x - s.position.location.x).natAbs +
              (s.home_location.z - s.position.location.z).natAbs : Nat) : Int) }) := by
  constructor
  · intro hge
    simp only [move, check_fuel, M.bind_apply, M.modify, hguard, if_true,
      get_fuel_run s f hreply, move_to_location_cost, afterCmd_position, afterCmd_home,
      afterCmd_check_fuel, afterCmd_agent]
    rw [if_pos hge]
    obtain ⟨t, ht, l, b, cf, hh, ag⟩ :=
      move_to_location_run g s.home_location
        { position := s.position, check_fuel := false, home_location := s.home_location,
          latest_command := (afterCmd "return turtle.getFuelLevel()" s).latest_command,
          latest_fuel := f,
          steps_from_home := (((s.home_location.y - s.position.location.y).natAbs +
            (s.home_location.x - s.position.location.x).natAbs +
            (s.home_location.z - s.position.location.z).natAbs : Nat) : Int),
          sent := (afterCmd "return turtle.getFuelLevel()" s).sent,
          recvCount := (afterCmd "return turtle.getFuelLevel()" s).recvCount,
          agent := s.agent } rfl
    simp only [ht, M.throw]
    exact ⟨t, rfl, cf, l, b⟩
  · intro hlt
    simp only [move, check_fuel, M.bind_apply, M.modify, hguard, if_true,
      get_fuel_run s f hreply, move_to_location_cost, afterCmd_position, afterCmd_home,
      afterCmd_check_fuel, afterCmd_agent]
    rw [if_neg (by omega)]

/-- The scenario-4 agent: every reply succeeds and reports fuel level 3. -/
def fuelThreeAgent : Nat → CommandResponse := fun _ => ⟨true, Value.int 3⟩

/-- The state of spec scenario 4 after the first move: pose
`((3,0,0), EAST)`, home `(0,0,0)`, guard enabled. -/
def guardScenarioState : TState :=
  { initState fuelThreeAgent with position := ⟨⟨3, 0, 0⟩, Bearing.EAST⟩ }

theorem C1_fuel_guard_witness :
    guardScenarioState.check_fuel = true ∧
    (∃ t, move 5 Direction.FORWARD guardScenarioState =
        (Except.error (Err.haltException "Returned before ran out of fuel."), t) ∧
      t.check_fuel = false ∧
      t.position.location = guardScenarioState.home_location ∧
      t.position.bearing = Bearing.NORTH) :=
  ⟨rfl, (C1_fuel_guard 0 Direction.FORWARD guardScenarioState 3 rfl rfl).1 (by decide)⟩

/-- C9: a snippet without the substring `"return"` makes the command
channel fail immediately with `CommandException` ("CommandMalformed" in
the spec's taxonomy) and the state — `sent` frames and `latest_command`
included — is returned unchanged; consequently, `_command` preserves the
invariant that every sent frame contains `"return"`. -/
theorem C9_command_return_invariant (c : String) (s : TState) :
    (containsSub "return" c = false →
      command_ c s =
        (Except.error (Err.commandException "Command must return a value."), s)) ∧
    ((∀ fr ∈ s.sent, containsSub "return" fr = true) →
      ∀ fr ∈ (command_ c s).2.sent, containsSub "return" fr = true) := by
  constructor
  · intro hc
    simp [command_, hc]
  · intro hs fr hfr
    by_cases hc : containsSub "return" c = true
    · rw [command_run c hc] at hfr
      simp only [afterCmd_sent, List.mem_append, List.mem_singleton] at hfr
      rcases hfr with h | h
      · exact hs fr h
      · rw [h]; exact hc
    · simp only [Bool.not_eq_true] at hc
      simp only [command_, hc, Bool.false_eq_true, if_false] at hfr
      exact hs fr hfr

theorem C9_command_return_invariant_witness :
    containsSub "return" "x" = false ∧
    command_ "x" (initState stubAgent) =
      (Except.error (Err.commandException "Command must return a value."),
        initState stubAgent) :=
  ⟨rfl, (C9_command_return_invariant "x" (initState stubAgent)).1 rfl⟩


/-!
## `refuel` never raises `ValueError` outside its opening guard -/

/-- No execution of `m` from any state raises `ValueError`. -/
def NoVE {α : Type} (m : M α) : Prop :=
  ∀ s msg, (m s).1 ≠ Except.error (Err.valueError msg)

theorem NoVE.bind {α β : Type} {m : M α} {f : α → M β}
    (hm : NoVE m) (hf : ∀ a, NoVE (f a)) : NoVE (M.bind m f) := by
  intro s msg
  rw [M.bind_apply]
  rcases h : m s with ⟨r, t⟩
  cases r with
  | ok a => exact hf a t msg
  | error e =>
    intro hcon
    apply hm s msg
    rw [h]
    simpa using hcon

theorem noVE_pure {α : Type} (a : α) : NoVE (M.pure a) := by
  intro s msg
  simp [M.pure]

theorem noVE_command (c : String) : NoVE (command_ c) := by
  intro s msg
  unfold command_
  split <;> simp

theorem noVE_get_fuel : NoVE get_fuel := by
  unfold get_fuel
  refine NoVE.bind (noVE_command _) fun res => ?_
  intro s msg
  split <;> simp

theorem noVE_inventory_select_go (search : String) :
    ∀ slots, NoVE (inventory_select_go search slots) := by
  intro slots
  induction slots with
  | nil =>
    intro s msg
    simp [inventory_select_go, M.throw]
  | cons slot rest ih =>
    rw [inventory_select_go]
    refine NoVE.bind (noVE_command _) fun res => ?_
    rcases res with ⟨st, data⟩
    cases data <;> simp only
    · exact ih
    all_goals {
      rcases hp : parseSlotInfo _ with _ | info <;> simp only [hp]
      · intro s msg; simp [M.throw]
      · split
        · exact NoVE.bind (noVE_command _) fun _ => noVE_pure ()
        · exact ih
    }

theorem noVE_inventory_select (search : String) : NoVE (inventory_select search) :=
  noVE_inventory_select_go search slot_range

theorem noVE_refuelLoop (target : Int) :
    ∀ g fuel_type, NoVE (refuelLoop target g fuel_type) := by
  intro g
  induction g with
  | zero =>
    intro ft s msg
    simp [refuelLoop, M.throw]
  | succ g ih =>
    intro ft s msg
    simp only [refuelLoop]
    rcases h : inventory_select ft s with ⟨r, t⟩
    cases r with
    | ok a =>
      refine NoVE.bind (noVE_command _) (fun _ => NoVE.bind noVE_get_fuel fun fuel => ?_) t msg
      intro s2 msg2
      split
      · simp
      · exact ih ft s2 msg2
    | error e =>
      cases e <;> try simp
      intro _
      exact absurd (by rw [h]) (noVE_inventory_select ft s _)

theorem noVE_refuelTypes (target : Int) (g : Nat) :
    ∀ types, NoVE (refuelTypes target g types) := by
  intro types
  induction types with
  | nil =>
    rw [refuelTypes]
    refine NoVE.bind noVE_get_fuel fun fuel => ?_
    intro s msg
    split <;> simp
  | cons ft rest ih =>
    rw [refuelTypes]
    refine NoVE.bind (noVE_refuelLoop target g ft) fun met => ?_
    intro s msg
    split
    · simp
    · exact ih s msg

/-- C10: `refuel` raises `ValueError` exactly for targets in the open
interval `0 < target < FUEL_LIMIT` (= 20000), doing so before sending
any frame (the state is returned untouched); every target `≤ 0` or
`≥ FUEL_LIMIT` passes the guard, and no later part of `refuel` can raise
`ValueError`, whatever the agent replies. -/
theorem C10_refuel_guard_range (g : Nat) (target : Int) (s : TState) :
    (0 < target ∧ target < FUEL_LIMIT →
      refuel g target s =
        (Except.error
          (Err.valueError "Target fuel level must be between 0 and 20000."), s)) ∧
    (¬(0 < target ∧ target < FUEL_LIMIT) →
      ∀ msg, (refuel g target s).1 ≠ Except.error (Err.valueError msg)) := by
  constructor
  · intro h
    simp [refuel, h]
  · intro h msg
    rw [refuel, if_neg h]
    exact noVE_refuelTypes target g fuel_blocks s msg

theorem C10_refuel_guard_range_witness :
    (0 < (50 : Int) ∧ (50 : Int) < FUEL_LIMIT) ∧
    refuel 1 50 (initState stubAgent) =
      (Except.error
        (Err.valueError "Target fuel level must be between 0 and 20000."),
        initState stubAgent) ∧
    ¬(0 < (20000 : Int) ∧ (20000 : Int) < FUEL_LIMIT) ∧
    (refuel 1 20000 (initState stubAgent)).1 ≠
      Except.error (Err.valueError "Target fuel level must be between 0 and 20000.") :=
  ⟨by decide, (C10_refuel_guard_range 1 50 (initState stubAgent)).1 (by decide),
   by decide, (C10_refuel_guard_range 1 20000 (initState stubAgent)).2 (by decide) _⟩


/-- The scenario-6 agent (spec §8): `getItemDetail` finds slots 1 and 2
empty and slot 3 holding `{name: "minecraft:coal", count: 2}`;
`getFuelLevel` reads 80 after the `refuel()` command. -/
def refuelScenarioAgent : Nat → CommandResponse := fun k =>
  match k with
  | 0 => ⟨true, Value.null⟩
  | 1 => ⟨true, Value.null⟩
  | 2 => ⟨true, Value.dict [("name", Value.str "minecraft:coal"), ("count", Value.int 2)]⟩
  | 3 => ⟨true, Value.null⟩
  | 4 => ⟨true, Value.null⟩
  | _ => ⟨true, Value.int 80⟩

set_option maxHeartbeats 2000000 in
/-- C3, at the failing input: with the scenario-6 inventory and fuel
replies, `refuel(target=50)` does not select slot 3 and does not return
success — the inverted range guard of turtle.py lines 466–467 raises
`ValueError` immediately (before any frame is sent: `sent` stays empty),
because `0 < 50 < FUEL_LIMIT` holds.  The claimed run does happen once
the guard is passed: with the out-of-range target 0 the controller
selects slot 3, issues `refuel`, re-reads fuel 80 > 0, and returns
success — showing the remainder of `refuel` implements the claimed
scenario and the opening guard alone contradicts it. -/
theorem C3_refuel_valueerror_bug :
    refuel 5 50 (initState refuelScenarioAgent) =
      (Except.error
        (Err.valueError "Target fuel level must be between 0 and 20000."),
        initState refuelScenarioAgent) ∧
    (initState refuelScenarioAgent).sent = [] ∧
    (refuel 5 0 (initState refuelScenarioAgent)).1 = Except.ok () ∧
    (refuel 5 0 (initState refuelScenarioAgent)).2.sent =
      ["return turtle.getItemDetail(1)", "return turtle.getItemDetail(2)",
       "return turtle.getItemDetail(3)", "return turtle.select(3)",
       "return turtle.refuel()", "return turtle.getFuelLevel()"] := by
  refine ⟨?_, rfl, rfl, rfl⟩
  simp [refuel, FUEL_LIMIT]

/-- An agent that always reports a gravel block in front, with the
block's name under the standard `"name"` key of the `inspect` data. -/
def gravelAgent : Nat → CommandResponse := fun _ =>
  ⟨true, Value.dict [("name", Value.str "minecraft:gravel")]⟩

/-- An agent whose `inspect` data carries the block name under a key
with a trailing space (`"name "`): first a gravel block, then (after one
dig) a stone block. -/
def gravelSpaceKeyAgent : Nat → CommandResponse := fun k =>
  match k with
  | 0 => ⟨true, Value.dict [("name ", Value.str "minecraft:gravel")]⟩
  | 1 => ⟨true, Value.null⟩
  | _ => ⟨true, Value.dict [("name ", Value.str "minecraft:stone")]⟩

set_option maxHeartbeats 2000000 in
/-- C7, at the failing input: against an agent reporting a gravel block
in front under the standard `"name"` key, `falling_block_check` reads
`data.get("name ", "")` — the key has a trailing space (turtle.py line
621) — obtains `""`, and exits after a single `inspect` without ever
digging, contradicting the claim that it digs.  Conversely, if the agent
sends the name under the literal `"name "` key, the loop digs and
re-inspects exactly as claimed — the behaviour hinges on the misspelt
key. -/
theorem C7_falling_block_key_bug :
    (falling_block_check 1 (initState gravelAgent)).1 = Except.ok () ∧
    (falling_block_check 1 (initState gravelAgent)).2.sent =
      ["return turtle.inspect()"] ∧
    (falling_block_check 2 (initState gravelSpaceKeyAgent)).1 = Except.ok () ∧
    (falling_block_check 2 (initState gravelSpaceKeyAgent)).2.sent =
      ["return turtle.inspect()", "return turtle.dig()", "return turtle.inspect()"] :=
  ⟨rfl, rfl, rfl, rfl⟩

/-- C2, at the failing input: start a `StripTurtle` at the origin (its
`_position.location` is one `Location` object, the class-level
`_home_location` another), take the snapshot
`self._home_location = self.position.location` of turtle.py line 663,
then run one `move(FORWARD)` at bearing NORTH.  Under Python reference
semantics the assignment aliases the two fields, so the in-place pose
update changes the home location too: home reads `(0,0,-1)` after the
move, not the snapshot point `(0,0,0)` — and it coincides with the
pose's location, so the fuel-guard return cost measured from it is 0. -/
theorem C2_home_alias_bug :
    (snapshotHome ⟨[⟨0, 0, 0⟩, ⟨0, 0, 0⟩], 0, 1, Bearing.NORTH⟩).homeLoc = ⟨0, 0, 0⟩ ∧
    (moveAliasStep Direction.FORWARD
        (snapshotHome ⟨[⟨0, 0, 0⟩, ⟨0, 0, 0⟩], 0, 1, Bearing.NORTH⟩)).homeLoc =
      ⟨0, 0, -1⟩ ∧
    (moveAliasStep Direction.FORWARD
        (snapshotHome ⟨[⟨0, 0, 0⟩, ⟨0, 0, 0⟩], 0, 1, Bearing.NORTH⟩)).homeLoc ≠
      (snapshotHome ⟨[⟨0, 0, 0⟩, ⟨0, 0, 0⟩], 0, 1, Bearing.NORTH⟩).homeLoc ∧
    (moveAliasStep Direction.FORWARD
        (snapshotHome ⟨[⟨0, 0, 0⟩, ⟨0, 0, 0⟩], 0, 1, Bearing.NORTH⟩)).homeLoc =
      (moveAliasStep Direction.FORWARD
        (snapshotHome ⟨[⟨0, 0, 0⟩, ⟨0, 0, 0⟩], 0, 1, Bearing.NORTH⟩)).posLoc := by
  decide

end CCMiner
